import Mathlib

/-! Verification of the image-upload pipeline of this repository.

The development shallowly embeds the two upload route handlers (the
optimizing route and the simple route), their magic-byte validators, the
pass-through fallback processing strategy, the Cloudinary configuration
probe and the response statistics.

Modelling conventions:
* byte buffers are lists of naturals; a JS read `buffer[i]` past the end of
  the buffer yields `undefined`, which compares unequal to every byte, so
  out-of-range access is `List.getElem?` returning `none`;
* a thrown error or rejected promise is `Except.error` carrying the message;
  the route-level catch block turns it into an HTTP 500 response;
* the sequential `for` loop of the simple route is a structural recursion
  threading the accumulated reference list, the Cloudinary calls attempted
  and the local filesystem writes performed;
* `Promise.all` over the files array is an order-preserving effectful map;
  when several entries reject, JS reports the temporally first rejection,
  the model reports the first in index order (both reject);
* the JS string helpers `split` / `pop` / `toLowerCase` are re-implemented
  by structural recursion over the character list so that they evaluate;
* the rich optimizer module and the unique-filename helper are imported by
  the routes from library files that are not part of the sources, so the
  routes are parametrised over them.
-/

namespace ImageUpload

/-- JS strict equality between the read `buffer[i]` and a byte literal:
out-of-range reads give `undefined`, which is equal to no byte. -/
def byteIs (buf : List Nat) (i : Nat) (b : Nat) : Bool :=
  buf[i]? == some b

/-- Result shape shared by both validators: `isValid` plus an optional
reason string. -/
structure ValidationOutcome where
  isValid : Bool
  error : Option String
deriving DecidableEq

/-- Function fallbackValidateImage of the optimizing route: magic-byte
check for JPEG (FF D8 FF), PNG (89 50 4E 47), GIF (47 49 46) and WEBP.
For WEBP only the four bytes 57 45 42 50 at offset 8 are inspected; the
RIFF prefix at offset 0 is not checked. -/
def fallbackValidateImage (buffer : List Nat) : ValidationOutcome :=
  let jpg := byteIs buffer 0 0xFF && byteIs buffer 1 0xD8 && byteIs buffer 2 0xFF
  let png := byteIs buffer 0 0x89 && byteIs buffer 1 0x50 && byteIs buffer 2 0x4E
      && byteIs buffer 3 0x47
  let gif := byteIs buffer 0 0x47 && byteIs buffer 1 0x49 && byteIs buffer 2 0x46
  let webp := byteIs buffer 8 0x57 && byteIs buffer 9 0x45 && byteIs buffer 10 0x42
      && byteIs buffer 11 0x50
  if jpg || png || gif || webp then ⟨true, none⟩
  else ⟨false, some "Invalid image format"⟩

/-- The documented magic-number signatures, written from the specification
for comparison with the validators of the code: JPEG FF D8 FF, PNG
89 50 4E 47, GIF 47 49 46, and WEBP with RIFF (52 49 46 46) at offset 0
and 57 45 42 50 at offset 8. -/
def specMagicSignature (buf : List Nat) : Bool :=
  (byteIs buf 0 0xFF && byteIs buf 1 0xD8 && byteIs buf 2 0xFF) ||
  (byteIs buf 0 0x89 && byteIs buf 1 0x50 && byteIs buf 2 0x4E && byteIs buf 3 0x47) ||
  (byteIs buf 0 0x47 && byteIs buf 1 0x49 && byteIs buf 2 0x46) ||
  (byteIs buf 0 0x52 && byteIs buf 1 0x49 && byteIs buf 2 0x46 && byteIs buf 3 0x46 &&
   byteIs buf 8 0x57 && byteIs buf 9 0x45 && byteIs buf 10 0x42 && byteIs buf 11 0x50)

/-- JS `s.split(sep).pop()` for a one-character separator: the segment after
the last occurrence of the separator, or the whole string when the
separator does not occur (split never yields an empty array). -/
def lastSegAux (sep : Char) : List Char → List Char → List Char
  | [], cur => cur
  | c :: rest, cur =>
      if c = sep then lastSegAux sep rest []
      else lastSegAux sep rest (cur ++ [c])

/-- The segment of a string after its last dot, the whole string when it
contains no dot (JS `s.split(".").pop()`). -/
def lastDotSegment (s : String) : String :=
  ⟨lastSegAux '.' s.data []⟩

/-- JS `s.toLowerCase()`, re-implemented structurally. -/
def toLowerStr (s : String) : String :=
  ⟨s.data.map Char.toLower⟩

/-- Size cap of the simple route, fixed at 20 MiB. -/
def maxFileSizeSimple : Nat := 20 * 1024 * 1024

/-- Maximum number of files per request, shared by both routes. -/
def maxFiles : Nat := 10

/-- Extension allow-list of the simple route. -/
def allowedExtensions : List String := ["jpg", "jpeg", "png", "gif", "webp"]

/-- Function validateImageFile of the simple route: size cap, extension
allow-list on the lowercased segment after the last dot, then two-byte
magic prefixes (FF D8, 89 50, 47 49, and 57 45 at offset 8 for WEBP). -/
def validateImageFile (buffer : List Nat) (filename : String) : ValidationOutcome :=
  if buffer.length > maxFileSizeSimple then ⟨false, some "File too large"⟩
  else if !(allowedExtensions.contains (lastDotSegment (toLowerStr filename))) then
    ⟨false, some "Invalid file type"⟩
  else
    let jpg := byteIs buffer 0 0xFF && byteIs buffer 1 0xD8
    let png := byteIs buffer 0 0x89 && byteIs buffer 1 0x50
    let gif := byteIs buffer 0 0x47 && byteIs buffer 1 0x49
    let webp := byteIs buffer 8 0x57 && byteIs buffer 9 0x45
    if jpg || png || gif || webp then ⟨true, none⟩
    else ⟨false, some "Invalid image format"⟩

/-- One optimized (or pass-through) rendition of a source image, the
OptimizedImageResult shape consumed by the persistence loop. -/
structure OptimizedImage where
  buffer : List Nat
  filename : String
  format : String
  size : Nat
  width : Nat
  height : Nat
deriving DecidableEq

/-- JS `filename.split(".").pop()?.toLowerCase() || "jpg"` from
fallbackProcessImages: the lowercased segment after the last dot, the
whole lowercased filename when there is no dot, and the string jpg only
when that segment is empty. -/
def inferFormat (filename : String) : String :=
  if toLowerStr (lastDotSegment filename) = "" then "jpg"
  else toLowerStr (lastDotSegment filename)

/-- Function fallbackProcessImages of the optimizing route: the
pass-through strategy returning, per input file, a single variant holding
the unchanged bytes, the byte length as size and the fixed placeholder
dimensions 800 by 600. -/
def fallbackProcessImages (fileBuffers : List (List Nat × String)) :
    List (List OptimizedImage) :=
  fileBuffers.map fun p => [⟨p.1, p.2, inferFormat p.2, p.1.length, 800, 600⟩]

/-- Configuration of the optimizing route: the MAX_FILE_SIZE environment
override (default 20971520) and the serverless-environment marker. -/
structure MainConfig where
  maxFileSize : Nat
  isServerless : Bool

/-- Inbound request of the optimizing route: the declared content length
when the header is present and numeric, the files of the form field
images as (name, bytes) pairs, and the upload type label. -/
structure MainRequest where
  contentLength : Option Nat
  files : List (String × List Nat)
  uploadType : String

/-- JS `Math.round` on an ideal (rational) value: floor of the value plus
one half. -/
def jsRoundQ (q : ℚ) : Int := ⌊q + 1 / 2⌋

/-- The statistics line of the optimizing route,
`Math.round((1 - totalOptimizedSize / originalSize) * 100)`.  The division
is not guarded: at an original size of zero the JS computation produces
NaN (or negative infinity), a non-numeric ratio modelled as `none`. -/
def compressionRatioOf (totalOptimizedSize originalSize : Nat) : Option Int :=
  if originalSize = 0 then none
  else some (jsRoundQ ((1 - (totalOptimizedSize : ℚ) / (originalSize : ℚ)) * 100))

/-- Response of the optimizing route, restricted to the fields the claims
inspect: the reference list and the statistics sizes and ratio on success,
the HTTP status and message on failure. -/
inductive MainResponse where
  | success (images : List String) (originalFiles : Nat)
      (originalSize : Nat) (optimizedSize : Nat) (ratio : Option Int)
  | failure (status : Nat) (message : String)
deriving DecidableEq

/-- Per-file closure inside `Promise.all(files.map(...))` of the optimizing
route: the size cap is checked first, then the image is validated; either
failure throws, rejecting the whole batch.  The byte-count detail of the
size message is elided. -/
def mainCheckFile (cfg : MainConfig) (validator : List Nat → ValidationOutcome)
    (f : String × List Nat) : Except String (List Nat × String) :=
  if f.2.length > cfg.maxFileSize then
    Except.error ("File " ++ f.1 ++ " is too large")
  else if (validator f.2).isValid then Except.ok (f.2, f.1)
  else
    Except.error ("Invalid image " ++ f.1 ++ ": " ++
      ((validator f.2).error.getD "undefined"))

/-- The validation stage of the optimizing route over the whole batch:
order-preserving, failing as soon as one file fails. -/
def mainValidateFiles (cfg : MainConfig) (validator : List Nat → ValidationOutcome) :
    List (String × List Nat) → Except String (List (List Nat × String))
  | [] => Except.ok []
  | f :: rest =>
    match mainCheckFile cfg validator f with
    | Except.error e => Except.error e
    | Except.ok out =>
      match mainValidateFiles cfg validator rest with
      | Except.error e => Except.error e
      | Except.ok outs => Except.ok (out :: outs)

/-- Per-variant persistence of the optimizing route: in a serverless
environment the abstract cloud uploader is called; otherwise the bytes are
written under uploads/(type)/(variant filename), the filename being used
exactly as produced by the processing strategy, with no uniquification. -/
def mainSaveVariant (cfg : MainConfig)
    (cloudUpload : OptimizedImage → String → Except String String)
    (uploadType : String) (img : OptimizedImage) : Except String String :=
  if cfg.isServerless then cloudUpload img uploadType
  else Except.ok ("uploads/" ++ uploadType ++ "/" ++ img.filename)

/-- Persistence over one file variant set (inner `Promise.all`). -/
def mainSaveSet (cfg : MainConfig)
    (cloudUpload : OptimizedImage → String → Except String String)
    (uploadType : String) : List OptimizedImage → Except String (List String)
  | [] => Except.ok []
  | img :: rest =>
    match mainSaveVariant cfg cloudUpload uploadType img with
    | Except.error e => Except.error e
    | Except.ok p =>
      match mainSaveSet cfg cloudUpload uploadType rest with
      | Except.error e => Except.error e
      | Except.ok ps => Except.ok (p :: ps)

/-- Persistence over all variant sets (outer `Promise.all`), flattened in
file-then-variant order. -/
def mainSaveAll (cfg : MainConfig)
    (cloudUpload : OptimizedImage → String → Except String String)
    (uploadType : String) : List (List OptimizedImage) → Except String (List String)
  | [] => Except.ok []
  | s :: rest =>
    match mainSaveSet cfg cloudUpload uploadType s with
    | Except.error e => Except.error e
    | Except.ok ps =>
      match mainSaveAll cfg cloudUpload uploadType rest with
      | Except.error e => Except.error e
      | Except.ok pss => Except.ok (ps ++ pss)

/-- Body of the optimizing route after the content-length gate: the two
HTTP 400 shape checks, then validation, optimization, persistence and the
statistics.  Any rejected promise lands in the catch block, which answers
HTTP 500 with the message. -/
def mainPOSTBody (cfg : MainConfig) (validator : List Nat → ValidationOutcome)
    (optimizer : List (List Nat × String) → Except String (List (List OptimizedImage)))
    (cloudUpload : OptimizedImage → String → Except String String)
    (req : MainRequest) : MainResponse :=
  if req.files.length = 0 then MainResponse.failure 400 "No files uploaded"
  else if req.files.length > maxFiles then
    MainResponse.failure 400 "Too many files. Maximum 10 files allowed"
  else
    match mainValidateFiles cfg validator req.files with
    | Except.error msg => MainResponse.failure 500 msg
    | Except.ok fileBuffers =>
      match optimizer fileBuffers with
      | Except.error msg => MainResponse.failure 500 msg
      | Except.ok optimizedResults =>
        match mainSaveAll cfg cloudUpload req.uploadType optimizedResults with
        | Except.error msg => MainResponse.failure 500 msg
        | Except.ok uploadedImages =>
          MainResponse.success uploadedImages req.files.length
            ((fileBuffers.map fun f => f.1.length).sum)
            ((optimizedResults.flatten.map fun i => i.size).sum)
            (compressionRatioOf ((optimizedResults.flatten.map fun i => i.size).sum)
              ((fileBuffers.map fun f => f.1.length).sum))

/-- Function POST of the optimizing route.  The content-length header, when
present, is compared against maxFileSize times maxFiles and answered with
HTTP 413 before anything else happens. -/
def mainPOST (cfg : MainConfig) (validator : List Nat → ValidationOutcome)
    (optimizer : List (List Nat × String) → Except String (List (List OptimizedImage)))
    (cloudUpload : OptimizedImage → String → Except String String)
    (req : MainRequest) : MainResponse :=
  match req.contentLength with
  | some n =>
      if n > cfg.maxFileSize * maxFiles then MainResponse.failure 413 "Request too large"
      else mainPOSTBody cfg validator optimizer cloudUpload req
  | none => mainPOSTBody cfg validator optimizer cloudUpload req

/-- The three Cloudinary environment variables. -/
structure CloudEnv where
  cloudName : Option String
  apiKey : Option String
  apiSecret : Option String

/-- JS truthiness of an optional environment string: unset and empty are
both falsy. -/
def envTruthy : Option String → Bool
  | none => false
  | some s => !(s == "")

/-- Function isCloudinaryConfigured of the Cloudinary module: all three
credentials must be present and non-empty. -/
def isCloudinaryConfigured (env : CloudEnv) : Bool :=
  envTruthy env.cloudName && envTruthy env.apiKey && envTruthy env.apiSecret

/-- Response of the simple route: the reference list on success, the HTTP
status and message on failure. -/
inductive SimpleResponse where
  | success (images : List String)
  | failure (status : Nat) (message : String)
deriving DecidableEq

/-- Outcome of one run of the simple route: the response together with the
observable effects, namely the Cloudinary uploads attempted (by generated
filename) and the local filesystem writes performed (reference path and
bytes). -/
structure SimpleResult where
  response : SimpleResponse
  cloudCalls : List String
  localWrites : List (String × List Nat)
deriving DecidableEq

/-- The fixed placeholder reference of the storage fallback. -/
def placeholderPath : String := "/placeholder-image.svg"

/-- The sequential per-file loop of the simple route.  Each file is
validated, renamed through the unique-filename generator gen (the helper
generateUniqueFileName lives in a library file outside the sources, so it
is an abstract parameter fed the loop position as freshness source), and
persisted before the next file is examined: Cloudinary when serverless and
configured, degrading to the placeholder reference when the provider call
fails; the placeholder directly, with no provider call, when serverless
and not configured; the local filesystem otherwise.  An invalid file
throws, reaching the catch block with the accumulated effects intact. -/
def simpleLoop (env : CloudEnv) (serverless : Bool)
    (cloudUpload : List Nat → String → String → Except String String)
    (gen : Nat → String → String) (uploadType : String) :
    Nat → List (String × List Nat) → List String → List String →
    List (String × List Nat) → SimpleResult
  | _, [], images, calls, writes => ⟨SimpleResponse.success images, calls, writes⟩
  | idx, f :: rest, images, calls, writes =>
    if (validateImageFile f.2 f.1).isValid then
      if serverless then
        if isCloudinaryConfigured env then
          match cloudUpload f.2 (gen idx f.1) uploadType with
          | Except.ok url =>
              simpleLoop env serverless cloudUpload gen uploadType (idx + 1) rest
                (images ++ [url]) (calls ++ [gen idx f.1]) writes
          | Except.error _ =>
              simpleLoop env serverless cloudUpload gen uploadType (idx + 1) rest
                (images ++ [placeholderPath]) (calls ++ [gen idx f.1]) writes
        else
          simpleLoop env serverless cloudUpload gen uploadType (idx + 1) rest
            (images ++ [placeholderPath]) calls writes
      else
        simpleLoop env serverless cloudUpload gen uploadType (idx + 1) rest
          (images ++ ["uploads/" ++ uploadType ++ "/" ++ gen idx f.1]) calls
          (writes ++ [("uploads/" ++ uploadType ++ "/" ++ gen idx f.1, f.2)])
    else
      ⟨SimpleResponse.failure 500 ("Invalid file " ++ f.1 ++ ": " ++
          ((validateImageFile f.2 f.1).error.getD "undefined")),
        calls, writes⟩

/-- Function POST of the simple route: the two HTTP 400 shape checks, then
the sequential loop. -/
def simplePOST (env : CloudEnv) (serverless : Bool)
    (cloudUpload : List Nat → String → String → Except String String)
    (gen : Nat → String → String)
    (files : List (String × List Nat)) (uploadType : String) : SimpleResult :=
  if files.length = 0 then ⟨SimpleResponse.failure 400 "No files uploaded", [], []⟩
  else if files.length > maxFiles then
    ⟨SimpleResponse.failure 400 "Too many files. Maximum 10 files allowed", [], []⟩
  else simpleLoop env serverless cloudUpload gen uploadType 0 files [] [] []

/-- The fallback strategy wrapped as a batch optimizer; it never fails. -/
def fallbackOptimizer :
    List (List Nat × String) → Except String (List (List OptimizedImage)) :=
  fun fbs => Except.ok (fallbackProcessImages fbs)

/-- A rich optimizer whose decode of the named file fails.  The optimizing
route leaves such a per-file rejection uncaught, so the whole batch
promise rejects, exactly as `Promise.all` does. -/
def decodeFailingOptimizer (bad : String) :
    List (List Nat × String) → Except String (List (List OptimizedImage)) :=
  fun fbs =>
    if fbs.any fun f => f.2 == bad then Except.error ("Failed to decode " ++ bad)
    else Except.ok (fallbackProcessImages fbs)

/-- The serverless local-storage thrower of the optimizing route. -/
def noCloud : OptimizedImage → String → Except String String :=
  fun _ _ => Except.error "Local storage not available in serverless"

/-- A validator accepting every buffer, standing in for the optional rich
validator that the optimizing route imports from the optimizer module
(absent from the sources). -/
def permissiveValidator : List Nat → ValidationOutcome :=
  fun _ => ⟨true, none⟩



/-! Section: Helper lemmas about the validators -/

theorem byteIs_lt_length {buf : List Nat} {i b : Nat} (h : byteIs buf i b = true) :
    i < buf.length := by
  have h2 : buf[i]? = some b := by simpa [byteIs] using h
  obtain ⟨h3, -⟩ := List.getElem?_eq_some.mp h2
  exact h3

theorem byteIs_nil (i b : Nat) : byteIs [] i b = false := rfl

theorem fallbackValidateImage_isValid_eq (buf : List Nat) :
    (fallbackValidateImage buf).isValid =
      ((byteIs buf 0 0xFF && byteIs buf 1 0xD8 && byteIs buf 2 0xFF) ||
       (byteIs buf 0 0x89 && byteIs buf 1 0x50 && byteIs buf 2 0x4E && byteIs buf 3 0x47) ||
       (byteIs buf 0 0x47 && byteIs buf 1 0x49 && byteIs buf 2 0x46) ||
       (byteIs buf 8 0x57 && byteIs buf 9 0x45 && byteIs buf 10 0x42 && byteIs buf 11 0x50)) := by
  simp only [fallbackValidateImage]
  split <;> simp_all

theorem fallbackValidateImage_three_le {buf : List Nat}
    (h : (fallbackValidateImage buf).isValid = true) : 3 ≤ buf.length := by
  rw [fallbackValidateImage_isValid_eq] at h
  simp only [Bool.or_eq_true, Bool.and_eq_true] at h
  rcases h with ((hj | hp) | hg) | hw
  · have := byteIs_lt_length hj.2
    omega
  · have := byteIs_lt_length hp.2
    omega
  · have := byteIs_lt_length hg.2
    omega
  · have := byteIs_lt_length hw.2
    omega

/-! Section: Claim C1 -/

/-- Claim C1, counterexample: a buffer whose twelve leading bytes are
0 0 0 0 0 0 0 0 57 45 42 50 matches none of the documented signatures
(there is no RIFF prefix), yet fallbackValidateImage accepts it, because
the code checks only bytes 8 to 11 for WEBP.  The claim requires
valid=false for every buffer matching no documented signature. -/
theorem c1_magic_validator_counterexample :
    specMagicSignature [0, 0, 0, 0, 0, 0, 0, 0, 0x57, 0x45, 0x42, 0x50] = false ∧
    (fallbackValidateImage [0, 0, 0, 0, 0, 0, 0, 0, 0x57, 0x45, 0x42, 0x50]).isValid
      = true := by
  constructor
  · decide
  · decide

/-- Claim C1 as amended: buffers matching a documented signature are
accepted by fallbackValidateImage (and, given an allow-listed extension
and the size cap, by validateImageFile); every rejection carries the
reason string; and a buffer matching no documented signature is rejected
provided its byte at offset 8 is not 57 — the code does not check the
RIFF prefix, so WEBP acceptance depends on offset 8 alone. -/
theorem c1_magic_validator_amended :
    (∀ buf, specMagicSignature buf = true → (fallbackValidateImage buf).isValid = true) ∧
    (∀ buf, (fallbackValidateImage buf).isValid = false →
        (fallbackValidateImage buf).error = some "Invalid image format") ∧
    (∀ buf, byteIs buf 8 0x57 = false → specMagicSignature buf = false →
        (fallbackValidateImage buf).isValid = false) ∧
    (∀ buf name, specMagicSignature buf = true →
        allowedExtensions.contains (lastDotSegment (toLowerStr name)) = true →
        buf.length ≤ maxFileSizeSimple →
        (validateImageFile buf name).isValid = true) ∧
    (∀ buf name, (validateImageFile buf name).isValid = false →
        (validateImageFile buf name).error.isSome = true) := by
  refine ⟨?_, ?_, ?_, ?_, ?_⟩
  · intro buf h
    rw [fallbackValidateImage_isValid_eq]
    revert h
    simp only [specMagicSignature, Bool.or_eq_true, Bool.and_eq_true]
    rintro (((hj | hp) | hg) | hw)
    · exact Or.inl (Or.inl (Or.inl hj))
    · exact Or.inl (Or.inl (Or.inr hp))
    · exact Or.inl (Or.inr hg)
    · exact Or.inr ⟨⟨⟨hw.1.1.1.2, hw.1.1.2⟩, hw.1.2⟩, hw.2⟩
  · intro buf
    simp only [fallbackValidateImage]
    split <;> simp
  · intro buf h8 hspec
    cases hb : (fallbackValidateImage buf).isValid with
    | false => rfl
    | true =>
      exfalso
      rw [fallbackValidateImage_isValid_eq] at hb
      simp only [Bool.or_eq_true, Bool.and_eq_true] at hb
      rcases hb with ((hj | hp) | hg) | hw
      · have hs : specMagicSignature buf = true := by
          simp only [specMagicSignature, Bool.or_eq_true, Bool.and_eq_true]
          exact Or.inl (Or.inl (Or.inl hj))
        rw [hspec] at hs
        exact absurd hs (by decide)
      · have hs : specMagicSignature buf = true := by
          simp only [specMagicSignature, Bool.or_eq_true, Bool.and_eq_true]
          exact Or.inl (Or.inl (Or.inr hp))
        rw [hspec] at hs
        exact absurd hs (by decide)
      · have hs : specMagicSignature buf = true := by
          simp only [specMagicSignature, Bool.or_eq_true, Bool.and_eq_true]
          exact Or.inl (Or.inr hg)
        rw [hspec] at hs
        exact absurd hs (by decide)
      · have h8t := hw.1.1.1
        rw [h8] at h8t
        exact absurd h8t (by decide)
  · intro buf name hspec hext hsize
    have h1 : ¬ (buf.length > maxFileSizeSimple) := not_lt.mpr hsize
    simp only [validateImageFile, h1, if_false, hext, Bool.not_true]
    simp only [specMagicSignature, Bool.or_eq_true, Bool.and_eq_true] at hspec
    have h2 : ((byteIs buf 0 0xFF && byteIs buf 1 0xD8) ||
        (byteIs buf 0 0x89 && byteIs buf 1 0x50) ||
        (byteIs buf 0 0x47 && byteIs buf 1 0x49) ||
        (byteIs buf 8 0x57 && byteIs buf 9 0x45)) = true := by
      simp only [Bool.or_eq_true, Bool.and_eq_true]
      rcases hspec with ((hj | hp) | hg) | hw
      · exact Or.inl (Or.inl (Or.inl hj.1))
      · exact Or.inl (Or.inl (Or.inr hp.1.1))
      · exact Or.inl (Or.inr hg.1)
      · exact Or.inr ⟨hw.1.1.1.2, hw.1.1.2⟩
    simp [h2]
  · intro buf name
    simp only [validateImageFile]
    split
    · simp
    · split
      · simp
      · split <;> simp

/-- Witness for the amended claim C1 at concrete inputs: a JPEG header is
accepted by both validators, and a buffer matching nothing is rejected. -/
theorem c1_magic_validator_amended_witness :
    (fallbackValidateImage [0xFF, 0xD8, 0xFF, 0]).isValid = true ∧
    (fallbackValidateImage [1, 2, 3]).isValid = false ∧
    (validateImageFile [0x89, 0x50, 0x4E, 0x47] "x.png").isValid = true :=
  ⟨c1_magic_validator_amended.1 [0xFF, 0xD8, 0xFF, 0] (by decide),
   c1_magic_validator_amended.2.2.1 [1, 2, 3] (by decide) (by decide),
   c1_magic_validator_amended.2.2.2.1 [0x89, 0x50, 0x4E, 0x47] "x.png"
     (by decide) (by decide) (by decide)⟩

/-! Section: Claim C10 -/

/-- Claim C10: both validators are total over arbitrary buffers.  A read
past the end of the buffer compares unequal to every signature byte, the
empty buffer is classified invalid by both validators, every
fallbackValidateImage rejection carries a reason, and any buffer it
accepts has at least three bytes (so short buffers are never accepted via
reads past their end). -/
theorem c10_validators_total :
    (∀ buf i b, buf.length ≤ i → byteIs buf i b = false) ∧
    fallbackValidateImage [] = ⟨false, some "Invalid image format"⟩ ∧
    (∀ name, (validateImageFile [] name).isValid = false) ∧
    (∀ buf, (fallbackValidateImage buf).isValid = false →
        (fallbackValidateImage buf).error.isSome = true) ∧
    (∀ buf, (fallbackValidateImage buf).isValid = true → 3 ≤ buf.length) := by
  refine ⟨?_, rfl, ?_, ?_, ?_⟩
  · intro buf i b h
    simp [byteIs, List.getElem?_eq_none h]
  · intro name
    simp only [validateImageFile, byteIs_nil, List.length_nil, maxFileSizeSimple]
    norm_num
    split <;> simp
  · intro buf
    simp only [fallbackValidateImage]
    split <;> simp
  · intro buf h
    exact fallbackValidateImage_three_le h

/-- Witness for claim C10 at concrete inputs. -/
theorem c10_validators_total_witness :
    byteIs [1, 2] 5 7 = false ∧
    (validateImageFile [] "a.jpg").isValid = false ∧
    (fallbackValidateImage [0]).error.isSome = true ∧
    3 ≤ ([0xFF, 0xD8, 0xFF] : List Nat).length :=
  ⟨c10_validators_total.1 [1, 2] 5 7 (by decide),
   c10_validators_total.2.2.1 "a.jpg",
   c10_validators_total.2.2.2.1 [0] (by decide),
   c10_validators_total.2.2.2.2 [0xFF, 0xD8, 0xFF] (by decide)⟩


/-! Section: Helper lemmas about the statistics and the optimizing route -/

theorem compressionRatioOf_self (n : Nat) (h : n ≠ 0) :
    compressionRatioOf n n = some 0 := by
  rw [compressionRatioOf, if_neg h, jsRoundQ]
  have hn : (n : ℚ) ≠ 0 := Nat.cast_ne_zero.mpr h
  rw [div_self hn]
  norm_num

theorem compressionRatioOf_fixture : compressionRatioOf 400 1000 = some 60 := by
  rw [compressionRatioOf]
  norm_num
  rw [jsRoundQ, Int.floor_eq_iff]
  norm_num

theorem mainPOST_eq_body (cfg : MainConfig) (v : List Nat → ValidationOutcome)
    (opt : List (List Nat × String) → Except String (List (List OptimizedImage)))
    (cloud : OptimizedImage → String → Except String String) (req : MainRequest)
    (h : ∀ n, req.contentLength = some n → n ≤ cfg.maxFileSize * maxFiles) :
    mainPOST cfg v opt cloud req = mainPOSTBody cfg v opt cloud req := by
  cases hc : req.contentLength with
  | none => simp [mainPOST, hc]
  | some n =>
    have hn : ¬ (n > cfg.maxFileSize * maxFiles) := not_lt.mpr (h n hc)
    simp [mainPOST, hc, hn]

theorem mainCheckFile_ok_length (cfg : MainConfig) (f : String × List Nat)
    (out : List Nat × String)
    (h : mainCheckFile cfg fallbackValidateImage f = Except.ok out) :
    3 ≤ out.1.length := by
  simp only [mainCheckFile] at h
  split at h
  · exact absurd h (by simp)
  · split at h
    · injection h with h2
      subst h2
      rename_i hsize hval
      exact fallbackValidateImage_three_le hval
    · exact absurd h (by simp)

theorem mainValidateFiles_pos_sum (cfg : MainConfig) :
    ∀ files fbs, mainValidateFiles cfg fallbackValidateImage files = Except.ok fbs →
      files ≠ [] → 0 < (fbs.map fun f => f.1.length).sum := by
  intro files fbs h hne
  cases files with
  | nil => exact absurd rfl hne
  | cons f rest =>
    cases hchk : mainCheckFile cfg fallbackValidateImage f with
    | error e => simp [mainValidateFiles, hchk] at h
    | ok out =>
      cases hrest : mainValidateFiles cfg fallbackValidateImage rest with
      | error e => simp [mainValidateFiles, hchk, hrest] at h
      | ok outs =>
        simp only [mainValidateFiles, hchk, hrest] at h
        injection h with h2
        subst h2
        have h3 := mainCheckFile_ok_length cfg f out hchk
        simp only [List.map_cons, List.sum_cons]
        omega

theorem mainValidateFiles_error_of_invalid (cfg : MainConfig)
    (v : List Nat → ValidationOutcome) :
    ∀ files (f : String × List Nat), f ∈ files → (v f.2).isValid = false →
      ∃ msg, mainValidateFiles cfg v files = Except.error msg := by
  intro files
  induction files with
  | nil => intro f hf _; cases hf
  | cons hd tl ih =>
    intro f hf hv
    cases hchk : mainCheckFile cfg v hd with
    | error e => exact ⟨e, by simp [mainValidateFiles, hchk]⟩
    | ok out =>
      rcases List.mem_cons.mp hf with heq | htl
      · exfalso
        subst heq
        simp only [mainCheckFile] at hchk
        split at hchk
        · exact absurd hchk (by simp)
        · split at hchk
          · simp_all
          · exact absurd hchk (by simp)
      · obtain ⟨msg, hmsg⟩ := ih f htl hv
        exact ⟨msg, by simp [mainValidateFiles, hchk, hmsg]⟩

/-! Section: Claim C2 -/

/-- Claim C2 is violated by the code (the specification marks this as the
intended wiring): when decoding of a single file of a two-file batch
fails, the optimizing route rejects the whole request with an aggregate
HTTP 500 and produces no outcome for the sibling file; the success shape
has no per-file error slot at all.  The same sibling file uploaded on its
own succeeds, showing the abort is caused solely by the failing sibling. -/
theorem c2_decode_failure_rejects_whole_batch :
    mainPOST ⟨20971520, false⟩ fallbackValidateImage (decodeFailingOptimizer "a.jpg") noCloud
        ⟨none, [("a.jpg", [0xFF, 0xD8, 0xFF]), ("b.jpg", [0xFF, 0xD8, 0xFF])], "products"⟩
      = MainResponse.failure 500 "Failed to decode a.jpg" ∧
    mainPOST ⟨20971520, false⟩ fallbackValidateImage fallbackOptimizer noCloud
        ⟨none, [("b.jpg", [0xFF, 0xD8, 0xFF])], "products"⟩
      = MainResponse.success ["uploads/products/b.jpg"] 1 3 3 (some 0) := by
  constructor
  · rfl
  · rw [show mainPOST ⟨20971520, false⟩ fallbackValidateImage fallbackOptimizer noCloud
        ⟨none, [("b.jpg", [0xFF, 0xD8, 0xFF])], "products"⟩
      = MainResponse.success ["uploads/products/b.jpg"] 1 3 3 (compressionRatioOf 3 3) from rfl]
    rw [compressionRatioOf_self 3 (by decide)]

/-! Section: Claim C3 -/

/-- Claim C3, counterexample: the division in the compression-ratio line is
not guarded.  At an original size of zero the code computes
Math.round((1 - 0/0) * 100), which is NaN, not 0; a successful batch
reporting originalBytes = 0 (reachable with the optional rich validator,
which is absent from the sources and is modelled here by a permissive
stand-in) reports a non-numeric ratio instead of the claimed 0. -/
theorem c3_compression_ratio_counterexample :
    compressionRatioOf 0 0 = none ∧
    mainPOST ⟨20971520, false⟩ permissiveValidator fallbackOptimizer noCloud
        ⟨none, [("a.jpg", [])], "products"⟩
      = MainResponse.success ["uploads/products/a.jpg"] 1 0 0 none ∧
    (none : Option Int) ≠ some 0 := by
  refine ⟨rfl, rfl, by decide⟩

/-- Claim C3 as amended: on every successful batch that went through the
in-repository fallback validator the original size is positive, the
division is therefore defined, and the reported ratio equals
round((1 - optimizedBytes / originalBytes) * 100); the spec fixture
1000 bytes to 400 bytes gives exactly 60.  The originalBytes = 0 case is
not guarded in the code (it yields NaN, see the counterexample); it is
merely unreachable through this validator. -/
theorem c3_compression_ratio_amended :
    (∀ cfg opt cloud req imgs nf os ts r,
        mainPOST cfg fallbackValidateImage opt cloud req
            = MainResponse.success imgs nf os ts r →
        0 < os ∧ r = some (jsRoundQ ((1 - (ts : ℚ) / (os : ℚ)) * 100))) ∧
    compressionRatioOf 400 1000 = some 60 := by
  constructor
  · intro cfg opt cloud req imgs nf os ts r h
    obtain ⟨cl, files, uploadType⟩ := req
    have hbody : ∀ hb : mainPOSTBody cfg fallbackValidateImage opt cloud ⟨cl, files, uploadType⟩
          = MainResponse.success imgs nf os ts r,
        0 < os ∧ r = some (jsRoundQ ((1 - (ts : ℚ) / (os : ℚ)) * 100)) := by
      intro hb
      simp only [mainPOSTBody] at hb
      split at hb
      · exact absurd hb (by simp)
      · split at hb
        · exact absurd hb (by simp)
        · next hzero _ =>
          split at hb
          · exact absurd hb (by simp)
          · next fbs hval =>
            split at hb
            · exact absurd hb (by simp)
            · next sets hopt =>
              split at hb
              · exact absurd hb (by simp)
              · next imgs2 hsave =>
                have hne : files ≠ [] := by
                  intro hnil
                  subst hnil
                  simp at hzero
                have hpos := mainValidateFiles_pos_sum cfg files fbs hval hne
                simp only [MainResponse.success.injEq] at hb
                obtain ⟨-, -, hos, hts, hr⟩ := hb
                subst hos
                subst hts
                constructor
                · exact hpos
                · rw [← hr, compressionRatioOf,
                    if_neg (Nat.pos_iff_ne_zero.mp hpos)]
    cases hc : cl with
    | none =>
      rw [mainPOST] at h
      simp only [hc] at h
      exact hbody h
    | some n =>
      rw [mainPOST] at h
      simp only [hc] at h
      split at h
      · exact absurd h (by simp)
      · exact hbody h
  · exact compressionRatioOf_fixture

/-- Witness for the amended claim C3: a one-file JPEG batch through the
fallback validator reports a positive original size and the rounded
ratio. -/
theorem c3_compression_ratio_amended_witness :
    0 < 3 ∧ compressionRatioOf 3 3
      = some (jsRoundQ ((1 - (3 : ℚ) / (3 : ℚ)) * 100)) :=
  c3_compression_ratio_amended.1 ⟨20971520, false⟩ fallbackOptimizer noCloud
    ⟨none, [("a.jpg", [0xFF, 0xD8, 0xFF])], "products"⟩
    ["uploads/products/a.jpg"] 1 3 3 (compressionRatioOf 3 3) rfl

/-! Section: Claim C7 -/

/-- Claim C7 is violated by the code of the optimizing route (the simple
route does uniquify; the optimizing route imports the unique-filename
helper but never calls it): in persistent-context mode the variant is
written under exactly the filename produced by the processing strategy —
for the pass-through strategy, the raw original upload name — so repeated
uploads of a file named a.jpg write the identical path every time, with
no timestamp or random suffix. -/
theorem c7_local_save_uses_raw_filename :
    mainPOST ⟨20971520, false⟩ fallbackValidateImage fallbackOptimizer noCloud
        ⟨none, [("a.jpg", [0xFF, 0xD8, 0xFF])], "products"⟩
      = MainResponse.success ["uploads/products/a.jpg"] 1 3 3 (some 0) ∧
    (∀ cloud img, mainSaveVariant ⟨20971520, false⟩ cloud "products" img
        = Except.ok ("uploads/" ++ "products" ++ "/" ++ img.filename)) := by
  constructor
  · rw [show mainPOST ⟨20971520, false⟩ fallbackValidateImage fallbackOptimizer noCloud
        ⟨none, [("a.jpg", [0xFF, 0xD8, 0xFF])], "products"⟩
      = MainResponse.success ["uploads/products/a.jpg"] 1 3 3 (compressionRatioOf 3 3) from rfl]
    rw [compressionRatioOf_self 3 (by decide)]
  · intro cloud img
    rfl


/-! Section: Claim C4 -/

/-- Claim C4: the optimizing route answers HTTP 413 when the declared
content length exceeds maxFileSize times maxFiles, HTTP 400 when the
batch is empty or holds more than ten files (the latter independently of
the optimizer and the storage backend, i.e. before any optimization
work), no 400 or 413 for a batch of exactly ten files within the length
limit, and HTTP 500 when optimization or persistence fails; the simple
route answers the same two HTTP 400 shape errors. -/
theorem c4_status_codes :
    (∀ cfg v opt cloud req n, req.contentLength = some n →
        cfg.maxFileSize * maxFiles < n →
        mainPOST cfg v opt cloud req = MainResponse.failure 413 "Request too large") ∧
    (∀ cfg v opt cloud req,
        (∀ n, req.contentLength = some n → n ≤ cfg.maxFileSize * maxFiles) →
        req.files = [] →
        mainPOST cfg v opt cloud req = MainResponse.failure 400 "No files uploaded") ∧
    (∀ cfg v opt opt2 cloud cloud2 req,
        (∀ n, req.contentLength = some n → n ≤ cfg.maxFileSize * maxFiles) →
        maxFiles < req.files.length →
        mainPOST cfg v opt cloud req
            = MainResponse.failure 400 "Too many files. Maximum 10 files allowed" ∧
        mainPOST cfg v opt cloud req = mainPOST cfg v opt2 cloud2 req) ∧
    (∀ cfg v opt cloud req,
        (∀ n, req.contentLength = some n → n ≤ cfg.maxFileSize * maxFiles) →
        req.files.length = 10 →
        ∀ msg, mainPOST cfg v opt cloud req ≠ MainResponse.failure 400 msg ∧
          mainPOST cfg v opt cloud req ≠ MainResponse.failure 413 msg) ∧
    (∀ cfg v opt cloud req fbs msg,
        (∀ n, req.contentLength = some n → n ≤ cfg.maxFileSize * maxFiles) →
        req.files ≠ [] → req.files.length ≤ maxFiles →
        mainValidateFiles cfg v req.files = Except.ok fbs →
        opt fbs = Except.error msg →
        mainPOST cfg v opt cloud req = MainResponse.failure 500 msg) ∧
    (∀ cfg v opt cloud req fbs sets msg,
        (∀ n, req.contentLength = some n → n ≤ cfg.maxFileSize * maxFiles) →
        req.files ≠ [] → req.files.length ≤ maxFiles →
        mainValidateFiles cfg v req.files = Except.ok fbs →
        opt fbs = Except.ok sets →
        mainSaveAll cfg cloud req.uploadType sets = Except.error msg →
        mainPOST cfg v opt cloud req = MainResponse.failure 500 msg) ∧
    (∀ env sv cu gen uploadType, simplePOST env sv cu gen [] uploadType
        = ⟨SimpleResponse.failure 400 "No files uploaded", [], []⟩) ∧
    (∀ env sv cu gen uploadType files, maxFiles < files.length →
        simplePOST env sv cu gen files uploadType
          = ⟨SimpleResponse.failure 400 "Too many files. Maximum 10 files allowed",
              [], []⟩) := by
  refine ⟨?_, ?_, ?_, ?_, ?_, ?_, ?_, ?_⟩
  · intro cfg v opt cloud req n hc hlt
    simp [mainPOST, hc, hlt]
  · intro cfg v opt cloud req hwithin hnil
    rw [mainPOST_eq_body cfg v opt cloud req hwithin]
    simp [mainPOSTBody, hnil]
  · intro cfg v opt opt2 cloud cloud2 req hwithin hlen
    have h0 : ¬ (req.files.length = 0) := by
      have h10 : (10 : Nat) < req.files.length := by simpa [maxFiles] using hlen
      omega
    have hmain : mainPOST cfg v opt cloud req
        = MainResponse.failure 400 "Too many files. Maximum 10 files allowed" := by
      rw [mainPOST_eq_body cfg v opt cloud req hwithin]
      simp [mainPOSTBody, h0, hlen]
    have hmain2 : mainPOST cfg v opt2 cloud2 req
        = MainResponse.failure 400 "Too many files. Maximum 10 files allowed" := by
      rw [mainPOST_eq_body cfg v opt2 cloud2 req hwithin]
      simp [mainPOSTBody, h0, hlen]
    exact ⟨hmain, hmain.trans hmain2.symm⟩
  · intro cfg v opt cloud req hwithin hlen msg
    rw [mainPOST_eq_body cfg v opt cloud req hwithin]
    have h0 : ¬ (req.files.length = 0) := by omega
    have h10 : ¬ (req.files.length > maxFiles) := by
      simp [maxFiles]
      omega
    simp only [mainPOSTBody, h0, if_false, h10]
    constructor
    · cases hval : mainValidateFiles cfg v req.files with
      | error e => simp [hval]
      | ok fbs =>
        cases hopt : opt fbs with
        | error e => simp [hval, hopt]
        | ok sets =>
          cases hsave : mainSaveAll cfg cloud req.uploadType sets with
          | error e => simp [hval, hopt, hsave]
          | ok imgs => simp [hval, hopt, hsave]
    · cases hval : mainValidateFiles cfg v req.files with
      | error e => simp [hval]
      | ok fbs =>
        cases hopt : opt fbs with
        | error e => simp [hval, hopt]
        | ok sets =>
          cases hsave : mainSaveAll cfg cloud req.uploadType sets with
          | error e => simp [hval, hopt, hsave]
          | ok imgs => simp [hval, hopt, hsave]
  · intro cfg v opt cloud req fbs msg hwithin hne hlen hval hopt
    rw [mainPOST_eq_body cfg v opt cloud req hwithin]
    have h0 : ¬ (req.files.length = 0) := by
      simpa [List.length_eq_zero] using hne
    have h10 : ¬ (req.files.length > maxFiles) := not_lt.mpr hlen
    simp [mainPOSTBody, h0, h10, hval, hopt]
  · intro cfg v opt cloud req fbs sets msg hwithin hne hlen hval hopt hsave
    rw [mainPOST_eq_body cfg v opt cloud req hwithin]
    have h0 : ¬ (req.files.length = 0) := by
      simpa [List.length_eq_zero] using hne
    have h10 : ¬ (req.files.length > maxFiles) := not_lt.mpr hlen
    simp [mainPOSTBody, h0, h10, hval, hopt, hsave]
  · intro env sv cu gen uploadType
    simp [simplePOST]
  · intro env sv cu gen uploadType files hlen
    have h0 : ¬ (files.length = 0) := by
      have h10 : (10 : Nat) < files.length := by simpa [maxFiles] using hlen
      omega
    simp [simplePOST, h0, hlen]

/-- Witness for claim C4 at concrete inputs: an oversized declared length,
an empty batch, a batch of eleven files under two different optimizers,
a batch of exactly ten files, and the empty batch on the simple route. -/
theorem c4_status_codes_witness :
    mainPOST ⟨1, false⟩ fallbackValidateImage fallbackOptimizer noCloud
        ⟨some 11, [], "products"⟩ = MainResponse.failure 413 "Request too large" ∧
    mainPOST ⟨20971520, false⟩ fallbackValidateImage fallbackOptimizer noCloud
        ⟨none, [], "products"⟩ = MainResponse.failure 400 "No files uploaded" ∧
    (mainPOST ⟨20971520, false⟩ fallbackValidateImage fallbackOptimizer noCloud
        ⟨none, List.replicate 11 ("a.jpg", [0xFF, 0xD8, 0xFF]), "products"⟩
       = MainResponse.failure 400 "Too many files. Maximum 10 files allowed" ∧
     mainPOST ⟨20971520, false⟩ fallbackValidateImage fallbackOptimizer noCloud
        ⟨none, List.replicate 11 ("a.jpg", [0xFF, 0xD8, 0xFF]), "products"⟩
       = mainPOST ⟨20971520, false⟩ fallbackValidateImage
           (decodeFailingOptimizer "a.jpg") (fun _ _ => Except.error "down")
           ⟨none, List.replicate 11 ("a.jpg", [0xFF, 0xD8, 0xFF]), "products"⟩) ∧
    (mainPOST ⟨20971520, false⟩ fallbackValidateImage fallbackOptimizer noCloud
        ⟨none, List.replicate 10 ("a.jpg", [0xFF, 0xD8, 0xFF]), "products"⟩
       ≠ MainResponse.failure 400 "x" ∧
     mainPOST ⟨20971520, false⟩ fallbackValidateImage fallbackOptimizer noCloud
        ⟨none, List.replicate 10 ("a.jpg", [0xFF, 0xD8, 0xFF]), "products"⟩
       ≠ MainResponse.failure 413 "x") ∧
    simplePOST ⟨none, none, none⟩ false (fun _ _ _ => Except.error "down")
        (fun _ n => n) [] "products"
      = ⟨SimpleResponse.failure 400 "No files uploaded", [], []⟩ :=
  ⟨c4_status_codes.1 ⟨1, false⟩ fallbackValidateImage fallbackOptimizer noCloud
      ⟨some 11, [], "products"⟩ 11 rfl (by decide),
   c4_status_codes.2.1 ⟨20971520, false⟩ fallbackValidateImage fallbackOptimizer noCloud
      ⟨none, [], "products"⟩ (by simp) rfl,
   c4_status_codes.2.2.1 ⟨20971520, false⟩ fallbackValidateImage fallbackOptimizer
      (decodeFailingOptimizer "a.jpg") noCloud (fun _ _ => Except.error "down")
      ⟨none, List.replicate 11 ("a.jpg", [0xFF, 0xD8, 0xFF]), "products"⟩
      (by simp) (by decide),
   c4_status_codes.2.2.2.1 ⟨20971520, false⟩ fallbackValidateImage fallbackOptimizer
      noCloud ⟨none, List.replicate 10 ("a.jpg", [0xFF, 0xD8, 0xFF]), "products"⟩
      (by simp) (by decide) "x",
   c4_status_codes.2.2.2.2.2.2.1 ⟨none, none, none⟩ false
      (fun _ _ _ => Except.error "down") (fun _ n => n) "products"⟩

/-! Section: Claim C5 -/

/-- Claim C5: when any file of the batch fails validation, the optimizing
route aborts the whole request with an HTTP 500 failure, and the response
is the same for every optimizer and every storage backend — no file of
the batch reaches the optimization stage. -/
theorem c5_validation_failure_aborts_batch :
    ∀ cfg v opt opt2 cloud cloud2 req,
      (∀ n, req.contentLength = some n → n ≤ cfg.maxFileSize * maxFiles) →
      req.files ≠ [] → req.files.length ≤ maxFiles →
      (∃ f ∈ req.files, (v f.2).isValid = false) →
      (∃ msg, mainPOST cfg v opt cloud req = MainResponse.failure 500 msg) ∧
      mainPOST cfg v opt cloud req = mainPOST cfg v opt2 cloud2 req := by
  intro cfg v opt opt2 cloud cloud2 req hwithin hne hlen hex
  obtain ⟨f, hf, hv⟩ := hex
  obtain ⟨msg, hmsg⟩ := mainValidateFiles_error_of_invalid cfg v req.files f hf hv
  have h0 : ¬ (req.files.length = 0) := by
    simpa [List.length_eq_zero] using hne
  have h10 : ¬ (req.files.length > maxFiles) := not_lt.mpr hlen
  have hmain : mainPOST cfg v opt cloud req = MainResponse.failure 500 msg := by
    rw [mainPOST_eq_body cfg v opt cloud req hwithin]
    simp [mainPOSTBody, h0, h10, hmsg]
  have hmain2 : mainPOST cfg v opt2 cloud2 req = MainResponse.failure 500 msg := by
    rw [mainPOST_eq_body cfg v opt2 cloud2 req hwithin]
    simp [mainPOSTBody, h0, h10, hmsg]
  exact ⟨⟨msg, hmain⟩, hmain.trans hmain2.symm⟩

/-- Witness for claim C5: a two-file batch whose second file has an invalid
buffer is answered with an HTTP 500, identically under two different
optimizers and storage backends. -/
theorem c5_validation_failure_aborts_batch_witness :
    (∃ msg, mainPOST ⟨20971520, false⟩ fallbackValidateImage fallbackOptimizer noCloud
        ⟨none, [("a.jpg", [0xFF, 0xD8, 0xFF]), ("b.png", [1, 2, 3])], "products"⟩
      = MainResponse.failure 500 msg) ∧
    mainPOST ⟨20971520, false⟩ fallbackValidateImage fallbackOptimizer noCloud
        ⟨none, [("a.jpg", [0xFF, 0xD8, 0xFF]), ("b.png", [1, 2, 3])], "products"⟩
      = mainPOST ⟨20971520, false⟩ fallbackValidateImage
          (decodeFailingOptimizer "a.jpg") (fun _ _ => Except.error "down")
          ⟨none, [("a.jpg", [0xFF, 0xD8, 0xFF]), ("b.png", [1, 2, 3])], "products"⟩ :=
  c5_validation_failure_aborts_batch ⟨20971520, false⟩ fallbackValidateImage
    fallbackOptimizer (decodeFailingOptimizer "a.jpg") noCloud
    (fun _ _ => Except.error "down")
    ⟨none, [("a.jpg", [0xFF, 0xD8, 0xFF]), ("b.png", [1, 2, 3])], "products"⟩
    (by simp) (by decide) (by decide)
    ⟨("b.png", [1, 2, 3]), by decide, by decide⟩


/-! Section: Helper lemmas about the simple route loop -/

theorem simpleLoop_not_configured (env : CloudEnv)
    (cu : List Nat → String → String → Except String String)
    (gen : Nat → String → String) (uploadType : String)
    (hcfg : isCloudinaryConfigured env = false) :
    ∀ files idx images calls writes,
      (∀ f ∈ files, (validateImageFile f.2 f.1).isValid = true) →
      simpleLoop env true cu gen uploadType idx files images calls writes =
        ⟨SimpleResponse.success (images ++ files.map fun _ => placeholderPath),
          calls, writes⟩ := by
  intro files
  induction files with
  | nil =>
    intro idx images calls writes _
    simp [simpleLoop]
  | cons f rest ih =>
    intro idx images calls writes hval
    have hf := hval f (List.mem_cons_self f rest)
    have hrest : ∀ g ∈ rest, (validateImageFile g.2 g.1).isValid = true :=
      fun g hg => hval g (List.mem_cons_of_mem f hg)
    simp only [simpleLoop, hf, if_true, hcfg, Bool.false_eq_true, if_false]
    rw [ih (idx + 1) (images ++ [placeholderPath]) calls writes hrest]
    simp

theorem simpleLoop_fail_open (env : CloudEnv)
    (cu : List Nat → String → String → Except String String)
    (gen : Nat → String → String) (uploadType : String)
    (hcfg : isCloudinaryConfigured env = true)
    (hfail : ∀ b n t, ∃ e, cu b n t = Except.error e) :
    ∀ files idx images calls writes,
      (∀ f ∈ files, (validateImageFile f.2 f.1).isValid = true) →
      ∃ calls2,
        simpleLoop env true cu gen uploadType idx files images calls writes =
          ⟨SimpleResponse.success (images ++ files.map fun _ => placeholderPath),
            calls2, writes⟩ ∧
        calls2.length = calls.length + files.length := by
  intro files
  induction files with
  | nil =>
    intro idx images calls writes _
    exact ⟨calls, by simp [simpleLoop], by simp⟩
  | cons f rest ih =>
    intro idx images calls writes hval
    have hf := hval f (List.mem_cons_self f rest)
    have hrest : ∀ g ∈ rest, (validateImageFile g.2 g.1).isValid = true :=
      fun g hg => hval g (List.mem_cons_of_mem f hg)
    obtain ⟨e, he⟩ := hfail f.2 (gen idx f.1) uploadType
    obtain ⟨calls2, heq, hlen⟩ :=
      ih (idx + 1) (images ++ [placeholderPath]) (calls ++ [gen idx f.1]) writes hrest
    refine ⟨calls2, ?_, ?_⟩
    · simp only [simpleLoop, hf, if_true, hcfg, he]
      rw [heq]
      simp
    · simp only [List.length_append, List.length_cons, List.length_nil] at hlen ⊢
      omega

theorem simpleLoop_append_invalid (env : CloudEnv) (sv : Bool)
    (cu : List Nat → String → String → Except String String)
    (gen : Nat → String → String) (uploadType : String)
    (bad : String × List Nat) (post : List (String × List Nat))
    (hbad : (validateImageFile bad.2 bad.1).isValid = false) :
    ∀ pre idx images calls writes,
      (∀ f ∈ pre, (validateImageFile f.2 f.1).isValid = true) →
      simpleLoop env sv cu gen uploadType idx (pre ++ bad :: post) images calls writes =
        ⟨SimpleResponse.failure 500 ("Invalid file " ++ bad.1 ++ ": " ++
            ((validateImageFile bad.2 bad.1).error.getD "undefined")),
          (simpleLoop env sv cu gen uploadType idx pre images calls writes).cloudCalls,
          (simpleLoop env sv cu gen uploadType idx pre images calls writes).localWrites⟩ := by
  intro pre
  induction pre with
  | nil =>
    intro idx images calls writes _
    simp only [List.nil_append, simpleLoop, hbad, Bool.false_eq_true, if_false]
  | cons f rest ih =>
    intro idx images calls writes hval
    have hf := hval f (List.mem_cons_self f rest)
    have hrest : ∀ g ∈ rest, (validateImageFile g.2 g.1).isValid = true :=
      fun g hg => hval g (List.mem_cons_of_mem f hg)
    cases sv with
    | false =>
      simp only [List.cons_append, simpleLoop, hf, if_true, Bool.false_eq_true, if_false]
      exact ih (idx + 1) _ calls _ hrest
    | true =>
      cases hcfg : isCloudinaryConfigured env with
      | false =>
        simp only [List.cons_append, simpleLoop, hf, if_true, hcfg,
          Bool.false_eq_true, if_false]
        exact ih (idx + 1) _ calls writes hrest
      | true =>
        cases hcu : cu f.2 (gen idx f.1) uploadType with
        | error e =>
          simp only [List.cons_append, simpleLoop, hf, if_true, hcfg, hcu]
          exact ih (idx + 1) _ _ writes hrest
        | ok url =>
          simp only [List.cons_append, simpleLoop, hf, if_true, hcfg, hcu]
          exact ih (idx + 1) _ _ writes hrest

/-! Section: Claim C6 -/

/-- Claim C6: in serverless mode with Cloudinary credentials absent the
simple route pushes the placeholder reference for every file and attempts
no provider call at all; with credentials present but every provider call
failing (the fail-open policy of this route), it attempts one call per
file, degrades each to the placeholder reference, and the request still
succeeds. -/
theorem c6_placeholder_fallback :
    (∀ env cu gen uploadType files,
        isCloudinaryConfigured env = false →
        (∀ f ∈ files, (validateImageFile f.2 f.1).isValid = true) →
        files ≠ [] → files.length ≤ maxFiles →
        simplePOST env true cu gen files uploadType
          = ⟨SimpleResponse.success (files.map fun _ => placeholderPath), [], []⟩) ∧
    (∀ env cu gen uploadType files,
        isCloudinaryConfigured env = true →
        (∀ b n t, ∃ e, cu b n t = Except.error e) →
        (∀ f ∈ files, (validateImageFile f.2 f.1).isValid = true) →
        files ≠ [] → files.length ≤ maxFiles →
        ∃ calls, simplePOST env true cu gen files uploadType
            = ⟨SimpleResponse.success (files.map fun _ => placeholderPath), calls, []⟩ ∧
          calls.length = files.length) := by
  constructor
  · intro env cu gen uploadType files hcfg hval hne hlen
    have h0 : ¬ (files.length = 0) := by
      simpa [List.length_eq_zero] using hne
    have h10 : ¬ (files.length > maxFiles) := not_lt.mpr hlen
    simp only [simplePOST, h0, if_false, h10]
    rw [simpleLoop_not_configured env cu gen uploadType hcfg files 0 [] [] [] hval]
    simp
  · intro env cu gen uploadType files hcfg hfail hval hne hlen
    have h0 : ¬ (files.length = 0) := by
      simpa [List.length_eq_zero] using hne
    have h10 : ¬ (files.length > maxFiles) := not_lt.mpr hlen
    obtain ⟨calls2, heq, hlen2⟩ :=
      simpleLoop_fail_open env cu gen uploadType hcfg hfail files 0 [] [] [] hval
    refine ⟨calls2, ?_, by simpa using hlen2⟩
    simp only [simplePOST, h0, if_false, h10]
    rw [heq]
    simp

/-- Witness for claim C6: one valid JPEG file, first with no credentials
(no call, placeholder), then with credentials and a failing provider
(one call, placeholder, success). -/
theorem c6_placeholder_fallback_witness :
    simplePOST ⟨none, none, none⟩ true (fun _ _ _ => Except.error "down")
        (fun _ n => n) [("a.jpg", [0xFF, 0xD8])] "products"
      = ⟨SimpleResponse.success
          ([("a.jpg", [0xFF, 0xD8])].map fun _ => placeholderPath), [], []⟩ ∧
    ∃ calls, simplePOST ⟨some "c", some "k", some "s"⟩ true
          (fun _ _ _ => Except.error "down") (fun _ n => n)
          [("a.jpg", [0xFF, 0xD8])] "products"
        = ⟨SimpleResponse.success
            ([("a.jpg", [0xFF, 0xD8])].map fun _ => placeholderPath), calls, []⟩ ∧
      calls.length = [("a.jpg", [0xFF, 0xD8])].length :=
  ⟨c6_placeholder_fallback.1 ⟨none, none, none⟩ (fun _ _ _ => Except.error "down")
      (fun _ n => n) "products" [("a.jpg", [0xFF, 0xD8])]
      (by decide) (by decide) (by decide) (by decide),
   c6_placeholder_fallback.2 ⟨some "c", some "k", some "s"⟩
      (fun _ _ _ => Except.error "down") (fun _ n => n) "products"
      [("a.jpg", [0xFF, 0xD8])] (by decide) (fun b n t => ⟨"down", rfl⟩)
      (by decide) (by decide) (by decide)⟩

/-! Section: Claim C9 -/

/-- Claim C9: the simple route processes files strictly sequentially in
input order; when the file following a prefix of valid files fails
validation, the whole request is answered with an HTTP 500 failure whose
response carries no reference list, while exactly the effects of
persisting that prefix (local writes, Cloudinary calls) have already
happened and are not undone; files after the invalid one are never
examined (the outcome does not depend on them). -/
theorem c9_prefix_persisted_before_failure :
    ∀ env sv cu gen uploadType pre bad post,
      (∀ f ∈ pre, (validateImageFile f.2 f.1).isValid = true) →
      (validateImageFile bad.2 bad.1).isValid = false →
      pre.length + 1 + post.length ≤ maxFiles →
      simplePOST env sv cu gen (pre ++ bad :: post) uploadType =
        ⟨SimpleResponse.failure 500 ("Invalid file " ++ bad.1 ++ ": " ++
            ((validateImageFile bad.2 bad.1).error.getD "undefined")),
          (simpleLoop env sv cu gen uploadType 0 pre [] [] []).cloudCalls,
          (simpleLoop env sv cu gen uploadType 0 pre [] [] []).localWrites⟩ := by
  intro env sv cu gen uploadType pre bad post hpre hbad hlen
  have hlen2 : (pre ++ bad :: post).length ≤ maxFiles := by
    simp only [List.length_append, List.length_cons]
    omega
  have h0 : ¬ ((pre ++ bad :: post).length = 0) := by
    simp [List.length_append, List.length_cons]
  have h10 : ¬ ((pre ++ bad :: post).length > maxFiles) := not_lt.mpr hlen2
  simp only [simplePOST, h0, if_false, h10]
  exact simpleLoop_append_invalid env sv cu gen uploadType bad post hbad pre 0 [] [] [] hpre

/-- Witness for claim C9: a valid JPEG, then an invalid file, then another
valid JPEG, in local (non-serverless) mode; the first file's write is
reported, the third file contributes nothing. -/
theorem c9_prefix_persisted_before_failure_witness :
    simplePOST ⟨none, none, none⟩ false (fun _ _ _ => Except.error "down")
        (fun i n => toString i ++ "-" ++ n)
        [("a.jpg", [0xFF, 0xD8]), ("b.jpg", [1, 2]), ("c.jpg", [0xFF, 0xD8])]
        "products"
      = ⟨SimpleResponse.failure 500 ("Invalid file " ++ "b.jpg" ++ ": " ++
            ((validateImageFile [1, 2] "b.jpg").error.getD "undefined")),
          (simpleLoop ⟨none, none, none⟩ false (fun _ _ _ => Except.error "down")
            (fun i n => toString i ++ "-" ++ n) "products" 0
            [("a.jpg", [0xFF, 0xD8])] [] [] []).cloudCalls,
          (simpleLoop ⟨none, none, none⟩ false (fun _ _ _ => Except.error "down")
            (fun i n => toString i ++ "-" ++ n) "products" 0
            [("a.jpg", [0xFF, 0xD8])] [] [] []).localWrites⟩ :=
  c9_prefix_persisted_before_failure ⟨none, none, none⟩ false
    (fun _ _ _ => Except.error "down") (fun i n => toString i ++ "-" ++ n)
    "products" [("a.jpg", [0xFF, 0xD8])] ("b.jpg", [1, 2]) [("c.jpg", [0xFF, 0xD8])]
    (by decide) (by decide) (by decide)

/-! Section: Claim C8 -/

/-- Claim C8, counterexample: for a filename with no dot the fallback
strategy does not default the format to jpg; JS split returns the whole
string, so the variant format for the file named photo is the string
photo itself. -/
theorem c8_fallback_format_counterexample :
    fallbackProcessImages [([0xFF, 0xD8, 0xFF], "photo")]
      = [[⟨[0xFF, 0xD8, 0xFF], "photo", "photo", 3, 800, 600⟩]] ∧
    "photo" ≠ "jpg" := by
  constructor
  · decide
  · decide

/-- Claim C8 as amended: the fallback strategy output is aligned
index-by-index with the input, each entry being exactly one variant
holding the unchanged bytes, the byte length as size and positive
placeholder dimensions; the format is the lowercased segment of the
filename after its last dot — the whole lowercased filename when there is
no dot, and jpg only when that segment is empty (empty name or trailing
dot). -/
theorem c8_fallback_variants_amended :
    (∀ fbs, (fallbackProcessImages fbs).length = fbs.length) ∧
    (∀ fbs (i : Nat) (p : List Nat × String), fbs[i]? = some p →
        (fallbackProcessImages fbs)[i]?
          = some [⟨p.1, p.2, inferFormat p.2, p.1.length, 800, 600⟩]) ∧
    (∀ fbs vs img, vs ∈ fallbackProcessImages fbs → img ∈ vs →
        img.size = img.buffer.length ∧ 0 < img.width ∧ 0 < img.height) ∧
    inferFormat "a.PNG" = "png" ∧ inferFormat "photo" = "photo" ∧
    inferFormat "a." = "jpg" ∧ inferFormat "" = "jpg" ∧
    inferFormat "x.y.webp" = "webp" := by
  refine ⟨?_, ?_, ?_, by decide, by decide, by decide, by decide, by decide⟩
  · intro fbs
    simp [fallbackProcessImages]
  · intro fbs i p h
    simp [fallbackProcessImages, List.getElem?_map, h]
  · intro fbs vs img hvs himg
    simp only [fallbackProcessImages, List.mem_map] at hvs
    obtain ⟨p, hp, rfl⟩ := hvs
    simp only [List.mem_singleton] at himg
    subst himg
    exact ⟨rfl, Nat.succ_pos 799, Nat.succ_pos 599⟩

/-- Witness for the amended claim C8 at a concrete input. -/
theorem c8_fallback_variants_amended_witness :
    (fallbackProcessImages [([1, 2], "x.PNG")])[0]?
      = some [⟨[1, 2], "x.PNG", inferFormat "x.PNG", 2, 800, 600⟩] ∧
    (⟨[1, 2], "x.PNG", inferFormat "x.PNG", 2, 800, 600⟩ : OptimizedImage).size
        = (⟨[1, 2], "x.PNG", inferFormat "x.PNG", 2, 800, 600⟩ : OptimizedImage).buffer.length
      ∧ 0 < (⟨[1, 2], "x.PNG", inferFormat "x.PNG", 2, 800, 600⟩ : OptimizedImage).width
      ∧ 0 < (⟨[1, 2], "x.PNG", inferFormat "x.PNG", 2, 800, 600⟩ : OptimizedImage).height :=
  ⟨c8_fallback_variants_amended.2.1 [([1, 2], "x.PNG")] 0 ([1, 2], "x.PNG") rfl,
   c8_fallback_variants_amended.2.2.1 [([1, 2], "x.PNG")]
     [⟨[1, 2], "x.PNG", inferFormat "x.PNG", 2, 800, 600⟩]
     ⟨[1, 2], "x.PNG", inferFormat "x.PNG", 2, 800, 600⟩
     (by decide) (by decide)⟩

end ImageUpload
